import Mathlib

/-!
# Verification of the attendance tracker's session/attendance core

Shallow embedding of the session lifecycle, QR payload codec, attendance
recording and dashboard aggregation logic of the attendance repository
(`client/src/pages/admin/qr-generator.tsx`, `client/src/pages/student/scanner.tsx`,
`client/src/pages/student/home.tsx`, the admin attendance page and the student
dashboard).  Timestamps are modelled as natural numbers counting milliseconds;
JSON values are modelled by an explicit inductive type, so `JSON.parse` /
`JSON.stringify` of the host platform appear as the identity on parsed values
(an unparseable input text is modelled as `Option.none`).
-/

namespace Attendance

/-- JSON values, the model of what `JSON.parse` returns. -/
inductive Json where
  | str (s : String)
  | num (n : Int)
  | jbool (b : Bool)
  | jnull
  | arr (elems : List Json)
  | obj (fields : List (String × Json))

/-- JavaScript truthiness of a JSON value: `null`, `false`, `0` and `""`
are falsy, everything else is truthy. -/
def jsTruthy : Json → Bool
  | .str s => !(s == "")
  | .num n => !(n == 0)
  | .jbool b => b
  | .jnull => false
  | .arr _ => true
  | .obj _ => true

/-- Property access `j.key` in JavaScript: looks the key up in an object,
yields nothing (`undefined`) on a missing key or a non-object. -/
def getField (j : Json) (key : String) : Option Json :=
  match j with
  | .obj fields => lookupField fields key
  | _ => none
where
  lookupField : List (String × Json) → String → Option Json
    | [], _ => none
    | (k, v) :: rest, key => if k == key then some v else lookupField rest key

/-- Truthiness of a property access: a missing property (`undefined`) is falsy. -/
def jsTruthyOpt : Option Json → Bool
  | none => false
  | some v => jsTruthy v

/-- The QR data object built in `onSubmit` of `qr-generator.tsx` (lines
242-250): `{sessionId, name, date, time, duration, generatedAt, expiresAfter: 10}`.
`JSON.stringify` of this object is the encoded QR text. -/
def encodeQr (sessionId name date time : String) (duration : Int)
    (generatedAt : String) : Json :=
  .obj [("sessionId", .str sessionId),
        ("name", .str name),
        ("date", .str date),
        ("time", .str time),
        ("duration", .num duration),
        ("generatedAt", .str generatedAt),
        ("expiresAfter", .num 10)]

/-- Error taxonomy of the spec (§7).  The scan path of `scanner.tsx` carries
plain `Error` values whose only data is a message string; the kind records
which rule produced the error. -/
inductive ScanErrorKind where
  | malformedPayload
  | unknownSession
  | expiredCode
  | storageError
  | validationError
deriving DecidableEq

/-- An error raised on the scan path: a kind plus the message string the
JavaScript `Error` object carries. -/
structure ScanError where
  kind : ScanErrorKind
  message : String
deriving DecidableEq

/-- The error thrown by the parse block of `handleQrCodeScan`
(`scanner.tsx` lines 68-76): both an unparseable text and a falsy
`sessionId` are rethrown with this one message. -/
def malformedError : ScanError :=
  { kind := .malformedPayload,
    message := "Invalid QR code format - could not parse QR data" }

/-- The decode step of `handleQrCodeScan` (`scanner.tsx` lines 68-76):
`JSON.parse` the text (`none` models an unparseable text), then throw
unless `parsedQR.sessionId` is truthy.  A pure function of the parsed
text alone: no store, no clock. -/
def qrDecode (parsed : Option Json) : Except ScanError Json :=
  match parsed with
  | none => .error malformedError
  | some j =>
    if jsTruthyOpt (getField j "sessionId") then .ok j
    else .error malformedError

/-- A row of the `sessions` table, with the fields `onSubmit` of
`qr-generator.tsx` inserts (lines 276-285) plus the row id the store
assigns.  Timestamps (`expires_at`, `created_at`) are milliseconds. -/
structure Session where
  id : String
  name : String
  date : String
  time : String
  duration : Int
  qr_code : Json
  expires_at : Nat
  is_active : Bool
  created_at : Nat

/-- A row of the `attendance` table (the shape `scanner.tsx` declares as
`AttendanceRecord`). -/
structure AttendanceRecord where
  id : String
  sessionId : String
  userId : String
  checkInTime : Nat
  status : String
deriving DecidableEq

/-- The validated form values of `qr-generator.tsx` (`FormValues`). -/
structure SessionInput where
  name : String
  date : String
  time : String
  duration : Int

/-- Number of sessions in the store with `is_active = true`. -/
def countActive (store : List Session) : Nat :=
  (store.filter (·.is_active)).length

/-- The bulk update `update({is_active: false}).eq('is_active', true)` of
`onSubmit` (`qr-generator.tsx` lines 292-295): every active session is
marked inactive, other rows are untouched. -/
def deactivateAll (store : List Session) : List Session :=
  store.map fun s => if s.is_active then { s with is_active := false } else s

/-- The session row `onSubmit` prepares (`sessionData`, lines 276-285):
`expires_at = now + 10 minutes` regardless of `duration`, `is_active = true`,
`created_at = now`; `qr_code` is the encoded QR payload of the freshly
generated `sessionId`.  `dbId` is the row id assigned by the store. -/
def mkSessionData (inp : SessionInput) (qrSessionId dbId : String)
    (now : Nat) : Session :=
  { id := dbId,
    name := inp.name,
    date := inp.date,
    time := inp.time,
    duration := inp.duration,
    qr_code := encodeQr qrSessionId inp.name inp.date inp.time inp.duration
      (toString now),
    expires_at := now + 10 * 60000,
    is_active := true,
    created_at := now }

/-- A failed store write, carrying the message the thrown
`Database error: ...` would surface. -/
structure StorageError where
  message : String
deriving DecidableEq

/-- The deactivate-then-insert sequence of `onSubmit`
(`qr-generator.tsx` lines 289-318).  `deactOk` and `insertOk` model
whether the two external store writes succeed.  A deactivation failure
is caught and only logged (lines 297-304): the code proceeds to the
insert either way.  An insert failure is thrown (lines 315-318) and the
run fails; on success the new row is appended with `is_active = true`. -/
def createSession (store : List Session) (inp : SessionInput)
    (qrSessionId dbId : String) (now : Nat) (deactOk insertOk : Bool) :
    Except StorageError (List Session) :=
  let store1 := if deactOk then deactivateAll store else store
  if insertOk then
    .ok (store1 ++ [mkSessionData inp qrSessionId dbId now])
  else
    .error { message := "Database error" }

/-- A store-level error as `supabase-js` reports it: a code such as
`PGRST116` plus a message. -/
structure DbError where
  code : String
  message : String
deriving DecidableEq

/-- The query of `fetchActiveSession` (student dashboard, lines 48-52):
`from('sessions').select('*').eq('is_active', true).maybeSingle()`.
`maybeSingle` yields no row for an empty result, the row for a singleton
result, and the `PGRST116` error when several rows match.  The only
filter is `is_active = true`: `expires_at` is not consulted. -/
def maybeSingleActive (store : List Session) :
    Except DbError (Option Session) :=
  match store.filter (·.is_active) with
  | [] => .ok none
  | [s] => .ok (some s)
  | _ => .error { code := "PGRST116",
                  message := "JSON object requested, multiple (or no) rows returned" }

/-- The state update `fetchActiveSession` performs on its result
(student dashboard, lines 54-63): a `PGRST116` error sets the active
session to `none`, any other error leaves the previous state unchanged
(only logs), and a success stores the returned row (or `none`). -/
def fetchActiveSessionState (prev : Option Session)
    (result : Except DbError (Option Session)) : Option Session :=
  match result with
  | .error e => if e.code == "PGRST116" then none else prev
  | .ok s => s

/-- Lookup of the session a payload refers to: `find` by the payload's
`sessionId` string. -/
def payloadSessionId (j : Json) : Option String :=
  match getField j "sessionId" with
  | some (.str s) => some s
  | _ => none

/-- First attendance record for a `(sessionId, userId)` pair, if any. -/
def findRecord (att : List AttendanceRecord) (sid uid : String) :
    Option AttendanceRecord :=
  att.find? fun r => r.sessionId == sid && r.userId == uid

/-- Modelled from the spec: `markAttendanceWithQR` (imported by
`scanner.tsx` from `client/src/lib/qrcode`, the Attendance Recorder)
is not among the provided source files; this follows §4.4 of the spec
word for word.  Decode the scanned text; look the session up by
`payload.sessionId` (`UnknownSession` if absent); fail with
`ExpiredCode` unless `now ≤ session.expiresAt`; if a record for
`(session.id, userId)` already exists return it with the
already-recorded flag `true`; otherwise insert a new `present` record
and return it with the flag `false`.  Returns the updated attendance
table together with the record and the flag. -/
def recordAttendance (sessions : List Session)
    (att : List AttendanceRecord) (parsed : Option Json)
    (userId : String) (now : Nat) (newId : String) :
    Except ScanError (List AttendanceRecord × AttendanceRecord × Bool) :=
  match qrDecode parsed with
  | .error e => .error e
  | .ok j =>
    match sessions.find? (fun s => some s.id == payloadSessionId j) with
    | none => .error { kind := .unknownSession, message := "Session not found" }
    | some s =>
      if s.expires_at < now then
        .error { kind := .expiredCode, message := "QR code has expired" }
      else
        match findRecord att s.id userId with
        | some r => .ok (att, r, true)
        | none =>
          let r : AttendanceRecord :=
            { id := newId, sessionId := s.id, userId := userId,
              checkInTime := now, status := "present" }
          .ok (att ++ [r], r, false)

/-- `message.toLowerCase()`, character by character. -/
def lowerChars (s : String) : List Char := s.data.map Char.toLower

/-- The expiry test of the catch branch of `handleQrCodeScan`
(`scanner.tsx` line 92): `error.message.toLowerCase().includes("expired")` —
a case-insensitive substring match on the message text. -/
def detectExpired (message : String) : Bool :=
  decide ("expired".data <:+: lowerChars message)

/-- The scan-page state set by `handleQrCodeScan`. -/
structure ScanUiState where
  scanSuccess : Bool
  scanError : Bool
  isExpired : Bool
  errorMessage : String
deriving DecidableEq

/-- The catch branch of `handleQrCodeScan` (`scanner.tsx` lines 87-98):
on any error, `scanError` is set; the expired affordance is chosen by
`detectExpired` on the message alone — the error's kind is never
consulted (JavaScript `Error` values do not carry one). -/
def scanFailureUi (e : ScanError) : ScanUiState :=
  if detectExpired e.message then
    { scanSuccess := false, scanError := true, isExpired := true,
      errorMessage := "This QR code has expired. Please ask for a new code." }
  else
    { scanSuccess := false, scanError := true, isExpired := false,
      errorMessage := e.message }

/-- `presentSessions` of `home.tsx` (line 30): the number of records with
`status === "present"`. -/
def presentCount (records : List AttendanceRecord) : Nat :=
  (records.filter (·.status == "present")).length

/-- `attendanceRate` of `home.tsx` (lines 29-31):
`total > 0 ? Math.round((present / total) * 100) : 0`, with `Math.round`
modelled by `round` on rationals (both are floor of the value plus one
half). -/
def attendanceRate (records : List AttendanceRecord) : Int :=
  if 0 < records.length then
    round (((presentCount records : ℚ) / (records.length : ℚ)) * 100)
  else 0

/-- The rate formula as the spec words it (§4.5):
`round(100 * count(status=present) / count(records))`, `0` on the empty
list. -/
def attendanceRateSpec (records : List AttendanceRecord) : Int :=
  if records.isEmpty then 0
  else round ((100 * (presentCount records : ℚ)) / (records.length : ℚ))

/-! ## Concrete sample data used by witnesses and counterexamples -/

/-- Sample form input `{name: "CS101", date: "2024-01-10", time: "09:00", duration: 60}`. -/
def sampleInput : SessionInput :=
  { name := "CS101", date := "2024-01-10", time := "09:00", duration := 60 }

/-- A sample encoded QR payload for session id `s1`. -/
def samplePayload : Json := encodeQr "s1" "CS101" "2024-01-10" "09:00" 60 "0"

/-- A sample stored session matching `samplePayload`, active, expiring at 600000 ms. -/
def sampleSession : Session :=
  { id := "s1", name := "CS101", date := "2024-01-10", time := "09:00",
    duration := 60, qr_code := samplePayload, expires_at := 600000,
    is_active := true, created_at := 0 }

/-- The record a first scan of `samplePayload` by user `u1` at time 100 inserts. -/
def sampleRecord : AttendanceRecord :=
  { id := "a1", sessionId := "s1", userId := "u1", checkInTime := 100,
    status := "present" }

/-- A session still flagged active whose QR expiry (1000 ms) has passed. -/
def expiredActive : Session :=
  { id := "s9", name := "Old", date := "2024-01-01", time := "08:00",
    duration := 60, qr_code := .jnull, expires_at := 1000,
    is_active := true, created_at := 0 }

/-- A payload whose `sessionId` field is present but the empty string. -/
def emptyIdPayload : Json := .obj [("sessionId", .str "")]

/-- An attendance record with `status = "present"`. -/
def presentRec : AttendanceRecord :=
  { id := "p", sessionId := "s", userId := "u", checkInTime := 0,
    status := "present" }

/-- An attendance record with `status = "absent"`. -/
def absentRec : AttendanceRecord :=
  { id := "q", sessionId := "s", userId := "u", checkInTime := 0,
    status := "absent" }

/-! ## Helper lemmas -/

/-- After the deactivation update no session in the store is active. -/
theorem filter_deactivateAll (store : List Session) :
    (deactivateAll store).filter (·.is_active) = [] := by
  induction store with
  | nil => rfl
  | cons s rest ih =>
    by_cases h : s.is_active
    · simpa [deactivateAll, List.filter_cons, h] using ih
    · simpa [deactivateAll, List.filter_cons, h] using ih

/-- `find?` skips a first block in which nothing matches. -/
theorem find?_none_append {α : Type} (p : α → Bool) (l1 l2 : List α)
    (h : l1.find? p = none) : (l1 ++ l2).find? p = l2.find? p := by
  induction l1 with
  | nil => rfl
  | cons a t ih =>
    cases hpa : p a with
    | true => simp [List.find?_cons, hpa] at h
    | false =>
      simp only [List.find?_cons, hpa] at h
      simpa [List.find?_cons, hpa] using ih h

/-- A list in which `find?` finds nothing filters to the empty list. -/
theorem filter_eq_nil_of_find?_none {α : Type} (p : α → Bool) (l : List α)
    (h : l.find? p = none) : l.filter p = [] := by
  rw [List.filter_eq_nil_iff]
  intro a ha
  rw [List.find?_eq_none] at h
  exact h a ha

/-- The recorder (spec-modelled) rejects a decodable payload whose session
is found but expired. -/
theorem recordAttendance_expired_of_late (sessions : List Session)
    (att : List AttendanceRecord) (parsed : Option Json) (u : String)
    (now : Nat) (rid : String) (j : Json) (s : Session)
    (hj : qrDecode parsed = .ok j)
    (hs : sessions.find? (fun x => some x.id == payloadSessionId j) = some s)
    (ht : s.expires_at < now) :
    recordAttendance sessions att parsed u now rid =
      .error { kind := .expiredCode, message := "QR code has expired" } := by
  simp [recordAttendance, hj, hs, ht]

/-! ## Claim theorems -/

/-- C1: a completed run of `createSession` whose two store writes
(deactivate-all, insert) both succeed leaves exactly one session with
`is_active = true`: the bulk update clears every active flag and the
insert then adds the single new active row. -/
theorem createSession_single_active (store : List Session)
    (inp : SessionInput) (qid did : String) (now : Nat) :
    ∃ store2, createSession store inp qid did now true true = .ok store2 ∧
      countActive store2 = 1 := by
  refine ⟨deactivateAll store ++ [mkSessionData inp qid did now], rfl, ?_⟩
  simp [countActive, List.filter_append, filter_deactivateAll, mkSessionData]

/-- C3: every session stored by a successful `createSession` run has
`expires_at = created_at + 10 minutes`, a fixed constant that does not
depend on the `duration` input; and a scan arriving after `expires_at`
is rejected by the attendance recorder with the `ExpiredCode` error
(recorder modelled from spec §4.4). -/
theorem createSession_expiry_ten_minutes (store : List Session)
    (inp : SessionInput) (qid did : String) (now : Nat) (deactOk : Bool) :
    ∃ store2,
      createSession store inp qid did now deactOk true = .ok store2 ∧
      ∃ s, store2.getLast? = some s ∧
        s.expires_at = s.created_at + 10 * 60000 ∧
        s.expires_at = now + 10 * 60000 ∧
        (∀ d : Int,
          (mkSessionData { inp with duration := d } qid did now).expires_at
            = s.expires_at) ∧
        (∀ (sessions : List Session) (att : List AttendanceRecord)
            (parsed : Option Json) (u : String) (t : Nat) (rid : String)
            (j : Json),
          qrDecode parsed = .ok j →
          sessions.find? (fun x => some x.id == payloadSessionId j) = some s →
          s.expires_at < t →
          recordAttendance sessions att parsed u t rid =
            .error { kind := .expiredCode, message := "QR code has expired" }) := by
  refine ⟨(if deactOk then deactivateAll store else store)
            ++ [mkSessionData inp qid did now], rfl,
          mkSessionData inp qid did now, ?_, rfl, rfl, fun d => rfl, ?_⟩
  · simp [List.getLast?_concat]
  · intro sessions att parsed u t rid j hj hs ht
    exact recordAttendance_expired_of_late sessions att parsed u t rid j _ hj hs ht

/-- C3 witness: the theorem applied to a run at time 0 on the empty store;
the stored session expires at 600000 ms and a scan of its payload at
700000 ms is rejected as expired. -/
theorem createSession_expiry_witness :
    (∃ store2,
      createSession [] sampleInput "s1" "s1" 0 true true = .ok store2 ∧
      ∃ s, store2.getLast? = some s ∧
        s.expires_at = s.created_at + 10 * 60000 ∧
        s.expires_at = 0 + 10 * 60000 ∧
        (∀ d : Int,
          (mkSessionData { sampleInput with duration := d } "s1" "s1" 0).expires_at
            = s.expires_at) ∧
        (∀ (sessions : List Session) (att : List AttendanceRecord)
            (parsed : Option Json) (u : String) (t : Nat) (rid : String)
            (j : Json),
          qrDecode parsed = .ok j →
          sessions.find? (fun x => some x.id == payloadSessionId j) = some s →
          s.expires_at < t →
          recordAttendance sessions att parsed u t rid =
            .error { kind := .expiredCode, message := "QR code has expired" })) ∧
    recordAttendance [mkSessionData sampleInput "s1" "s1" 0] []
        (some samplePayload) "u1" 700000 "a9" =
      .error { kind := .expiredCode, message := "QR code has expired" } :=
  ⟨createSession_expiry_ten_minutes [] sampleInput "s1" "s1" 0 true, rfl⟩

/-- C8 counterexample: a run in which the deactivation write fails but the
insert succeeds does not fail with a `StorageError` — it completes
successfully and leaves two sessions active (the old one and the new one). -/
theorem createSession_deact_failure_cex :
    createSession [expiredActive] sampleInput "q1" "d1" 0 false true =
      .ok [expiredActive, mkSessionData sampleInput "q1" "d1" 0] ∧
    countActive [expiredActive, mkSessionData sampleInput "q1" "d1" 0] = 2 :=
  ⟨rfl, rfl⟩

/-- C8 amended: `createSession` fails with a `StorageError` exactly when the
insert write fails; a deactivation-write failure is only logged, the insert
is still attempted, and when it succeeds the run completes with one more
active session than before (duplicate-active risk). -/
theorem createSession_storage_error_amended :
    (∀ (store : List Session) (inp : SessionInput) (qid did : String)
        (now : Nat) (deactOk : Bool),
      ∃ e, createSession store inp qid did now deactOk false = .error e) ∧
    (∀ (store : List Session) (inp : SessionInput) (qid did : String)
        (now : Nat) (deactOk : Bool),
      ∃ store2, createSession store inp qid did now deactOk true = .ok store2) ∧
    (∀ (store : List Session) (inp : SessionInput) (qid did : String)
        (now : Nat),
      ∃ store2, createSession store inp qid did now false true = .ok store2 ∧
        countActive store2 = countActive store + 1) := by
  refine ⟨fun store inp qid did now deactOk => ⟨_, rfl⟩,
          fun store inp qid did now deactOk => ⟨_, rfl⟩,
          fun store inp qid did now =>
            ⟨store ++ [mkSessionData inp qid did now], rfl, ?_⟩⟩
  simp [countActive, List.filter_append, mkSessionData]

/-- C2: scanning the same valid, unexpired payload twice for the same user
yields exactly one attendance record for the `(sessionId, userId)` pair; the
second scan returns the existing record with the already-recorded flag
instead of an error or a duplicate row (recorder modelled from spec §4.4). -/
theorem recordAttendance_idempotent
    (sessions : List Session) (att att1 : List AttendanceRecord)
    (parsed : Option Json) (u : String) (now1 now2 : Nat) (id1 id2 : String)
    (r : AttendanceRecord) (s : Session) (j : Json)
    (hj : qrDecode parsed = .ok j)
    (hs : sessions.find? (fun x => some x.id == payloadSessionId j) = some s)
    (h1 : recordAttendance sessions att parsed u now1 id1 = .ok (att1, r, false))
    (h2 : now2 ≤ s.expires_at) :
    recordAttendance sessions att1 parsed u now2 id2 = .ok (att1, r, true) ∧
    (att1.filter fun x => x.sessionId == r.sessionId && x.userId == u).length
      = 1 := by
  simp only [recordAttendance, hj, hs] at h1
  by_cases hexp : s.expires_at < now1
  · rw [if_pos hexp] at h1
    exact absurd h1 (by simp)
  · rw [if_neg hexp] at h1
    cases hr : findRecord att s.id u with
    | some r0 => rw [hr] at h1; simp at h1
    | none =>
      rw [hr] at h1
      simp only [Except.ok.injEq, Prod.mk.injEq, and_true] at h1
      obtain ⟨ha, hrr⟩ := h1
      subst ha
      subst hrr
      have hfound :
          findRecord (att ++ [AttendanceRecord.mk id1 s.id u now1 "present"])
            s.id u = some (AttendanceRecord.mk id1 s.id u now1 "present") := by
        unfold findRecord at hr ⊢
        rw [find?_none_append _ _ _ hr]
        simp [List.find?_cons]
      constructor
      · simp only [recordAttendance, hj, hs]
        rw [if_neg (Nat.not_lt.mpr h2), hfound]
      · have hnil : att.filter
            (fun x => x.sessionId == s.id && x.userId == u) = [] :=
          filter_eq_nil_of_find?_none _ _ hr
        simp [List.filter_append, hnil]

/-- C2 witness: user `u1` scans `samplePayload` at time 100 (new record) and
again at time 200 (already recorded, table unchanged, one row for the pair). -/
theorem recordAttendance_idempotent_witness :
    recordAttendance [sampleSession] [sampleRecord] (some samplePayload)
        "u1" 200 "a2" = .ok ([sampleRecord], sampleRecord, true) ∧
    ([sampleRecord].filter fun x =>
        x.sessionId == sampleRecord.sessionId && x.userId == "u1").length = 1 :=
  recordAttendance_idempotent [sampleSession] [] [sampleRecord]
    (some samplePayload) "u1" 100 200 "a1" "a2" sampleRecord sampleSession
    samplePayload rfl rfl rfl (by decide)

/-- C4 counterexample: the active-session read of the student dashboard
filters only on `is_active`.  A session still flagged active whose
`expires_at` (1000 ms) lies before the current time (2000 ms) is returned
and displayed, not treated as "no active session". -/
theorem getActive_ignores_expiry_cex :
    expiredActive.is_active = true ∧
    expiredActive.expires_at < 2000 ∧
    maybeSingleActive [expiredActive] = .ok (some expiredActive) ∧
    fetchActiveSessionState none (maybeSingleActive [expiredActive]) =
      some expiredActive :=
  ⟨rfl, by decide, rfl, rfl⟩

/-- C4 amended: the active-session read returns the unique session with
`is_active = true` regardless of its `expires_at` — expiry is not consulted
at read time (the query has no time argument at all) — and no flag is
flipped (the read mutates nothing); with no active flag set it returns
none. -/
theorem getActive_by_flag_amended :
    (∀ (store : List Session) (s : Session),
        store.filter (·.is_active) = [s] →
        maybeSingleActive store = .ok (some s)) ∧
    (∀ store : List Session, store.filter (·.is_active) = [] →
        maybeSingleActive store = .ok none) ∧
    (∀ (store : List Session) (s : Session),
        maybeSingleActive store = .ok (some s) → s.is_active = true) := by
  refine ⟨fun store s h => by simp [maybeSingleActive, h],
          fun store h => by simp [maybeSingleActive, h],
          fun store s h => ?_⟩
  unfold maybeSingleActive at h
  cases hf : store.filter (·.is_active) with
  | nil => rw [hf] at h; simp at h
  | cons a t =>
    cases t with
    | nil =>
      rw [hf] at h
      simp only [Except.ok.injEq, Option.some.injEq] at h
      subst h
      have ha : a ∈ store.filter (·.is_active) := by
        rw [hf]; exact List.mem_singleton_self a
      exact (List.mem_filter.mp ha).2
    | cons b t2 => rw [hf] at h; simp at h

/-- C4 amended witness: the singleton store holding `expiredActive` —
its flag is up, so it is returned even though it is long expired. -/
theorem getActive_by_flag_witness :
    maybeSingleActive [expiredActive] = .ok (some expiredActive) ∧
    maybeSingleActive [] = .ok none ∧
    expiredActive.is_active = true :=
  ⟨getActive_by_flag_amended.1 [expiredActive] expiredActive rfl,
   getActive_by_flag_amended.2.1 [] rfl,
   getActive_by_flag_amended.2.2 [expiredActive] expiredActive rfl⟩

/-- A non-`PGRST116` store error, as a fetch failure would surface it. -/
def otherError : DbError := { code := "500", message := "server error" }

/-- The `PGRST116` single-row violation error of the store. -/
def pgError : DbError :=
  { code := "PGRST116",
    message := "JSON object requested, multiple (or no) rows returned" }

/-- C10: the student dashboard maps a `PGRST116` fetch error to "no active
session", leaves the previously displayed state untouched on any other
error, and both an empty active set and a violated at-most-one-active
invariant (two or more flagged rows) end up displayed as none. -/
theorem fetchActive_pgrst116 :
    (∀ (prev : Option Session) (e : DbError), e.code = "PGRST116" →
        fetchActiveSessionState prev (.error e) = none) ∧
    (∀ (prev : Option Session) (e : DbError), e.code ≠ "PGRST116" →
        fetchActiveSessionState prev (.error e) = prev) ∧
    (∀ (prev : Option Session) (store : List Session),
        countActive store = 0 →
        fetchActiveSessionState prev (maybeSingleActive store) = none) ∧
    (∀ (prev : Option Session) (store : List Session),
        2 ≤ countActive store →
        fetchActiveSessionState prev (maybeSingleActive store) = none) := by
  refine ⟨fun prev e h => by simp [fetchActiveSessionState, h],
          fun prev e h => by simp [fetchActiveSessionState, h],
          fun prev store h => ?_, fun prev store h => ?_⟩
  · unfold countActive at h
    rw [List.length_eq_zero] at h
    simp [maybeSingleActive, h, fetchActiveSessionState]
  · unfold countActive at h
    cases hf : store.filter (·.is_active) with
    | nil => rw [hf] at h; simp at h
    | cons a t =>
      cases t with
      | nil => rw [hf] at h; simp at h
      | cons b t2 => simp [maybeSingleActive, hf, fetchActiveSessionState]

/-- C10 witness: concrete store states — the `PGRST116` error and the
two-active-rows store display as none, the `500` error leaves the shown
session in place. -/
theorem fetchActive_pgrst116_witness :
    fetchActiveSessionState (some sampleSession) (.error pgError) = none ∧
    fetchActiveSessionState (some sampleSession) (.error otherError) =
      some sampleSession ∧
    fetchActiveSessionState (some sampleSession) (maybeSingleActive []) =
      none ∧
    fetchActiveSessionState (some sampleSession)
      (maybeSingleActive [expiredActive, sampleSession]) = none :=
  ⟨fetchActive_pgrst116.1 (some sampleSession) pgError rfl,
   fetchActive_pgrst116.2.1 (some sampleSession) otherError (by decide),
   fetchActive_pgrst116.2.2.1 (some sampleSession) [] rfl,
   fetchActive_pgrst116.2.2.2 (some sampleSession)
     [expiredActive, sampleSession] (by decide)⟩

/-- C5 counterexample: the scan page does not detect the expired case by
error kind — it substring-matches the message.  A storage error whose
message happens to contain "expired" is classified as the expired case,
so detection is not equivalent to the error's kind. -/
theorem scanner_expiry_detection_cex :
    ¬ ∀ e : ScanError,
        (detectExpired e.message = true ↔ e.kind = .expiredCode) := by
  intro h
  have h2 := (h { kind := .storageError,
                  message := "Database connection expired" }).mp (by decide)
  exact absurd h2 (by decide)

/-- A sample payload referring to the expired session `expiredActive`. -/
def expiredPayload : Json := encodeQr "s9" "Old" "2024-01-01" "08:00" 60 "0"

/-- C5 amended: a scan arriving after the session's expiry fails with the
distinguished `ExpiredCode` error (recorder modelled from spec §4.4), whose
message contains "expired"; the display layer chooses the dedicated
"expired" affordance by a case-insensitive substring match on the error
message alone — the error's kind is never consulted. -/
theorem scanner_expired_error_amended :
    (∀ (sessions : List Session) (att : List AttendanceRecord)
        (parsed : Option Json) (u : String) (now : Nat) (rid : String)
        (j : Json) (s : Session),
      qrDecode parsed = .ok j →
      sessions.find? (fun x => some x.id == payloadSessionId j) = some s →
      s.expires_at < now →
      ∃ e, recordAttendance sessions att parsed u now rid = .error e ∧
        e.kind = .expiredCode ∧ detectExpired e.message = true) ∧
    (∀ e : ScanError, (scanFailureUi e).isExpired = detectExpired e.message) ∧
    (∀ (k1 k2 : ScanErrorKind) (msg : String),
      scanFailureUi { kind := k1, message := msg } =
        scanFailureUi { kind := k2, message := msg }) := by
  refine ⟨fun sessions att parsed u now rid j s hj hs ht =>
            ⟨_, recordAttendance_expired_of_late sessions att parsed u now
                  rid j s hj hs ht, rfl, by decide⟩,
          fun e => ?_, fun k1 k2 msg => rfl⟩
  unfold scanFailureUi
  by_cases h : detectExpired e.message <;> simp [h]

/-- C5 amended witness: scanning the payload of `expiredActive` at time
2000 ms (past its 1000 ms expiry) yields the `ExpiredCode` error; the UI
classifies by message for every kind alike. -/
theorem scanner_expired_error_witness :
    (∃ e, recordAttendance [expiredActive] [] (some expiredPayload)
        "u1" 2000 "a1" = .error e ∧
      e.kind = .expiredCode ∧ detectExpired e.message = true) ∧
    (scanFailureUi malformedError).isExpired =
      detectExpired malformedError.message ∧
    scanFailureUi { kind := .storageError, message := "x" } =
      scanFailureUi { kind := .unknownSession, message := "x" } :=
  ⟨scanner_expired_error_amended.1 [expiredActive] [] (some expiredPayload)
      "u1" 2000 "a1" expiredPayload expiredActive rfl rfl (by decide),
   scanner_expired_error_amended.2.1 malformedError,
   scanner_expired_error_amended.2.2 .storageError .unknownSession "x"⟩

/-- C6: decoding an encoded QR payload recovers the `sessionId`, `name`,
`date`, `time` and `duration` it was encoded with (the generated session
ids are nonempty, so the truthiness check passes). -/
theorem qr_roundtrip (sid nm dt tm : String) (dur : Int) (gen : String)
    (h : sid ≠ "") :
    qrDecode (some (encodeQr sid nm dt tm dur gen)) =
      .ok (encodeQr sid nm dt tm dur gen) ∧
    payloadSessionId (encodeQr sid nm dt tm dur gen) = some sid ∧
    getField (encodeQr sid nm dt tm dur gen) "name" = some (.str nm) ∧
    getField (encodeQr sid nm dt tm dur gen) "date" = some (.str dt) ∧
    getField (encodeQr sid nm dt tm dur gen) "time" = some (.str tm) ∧
    getField (encodeQr sid nm dt tm dur gen) "duration" = some (.num dur) := by
  refine ⟨?_, ?_, ?_, ?_, ?_, ?_⟩ <;>
    simp [qrDecode, encodeQr, getField, getField.lookupField,
      payloadSessionId, jsTruthyOpt, jsTruthy, h]

/-- C6 witness: the roundtrip at the sample session values. -/
theorem qr_roundtrip_witness :
    qrDecode (some samplePayload) = .ok samplePayload ∧
    payloadSessionId samplePayload = some "s1" ∧
    getField samplePayload "name" = some (.str "CS101") ∧
    getField samplePayload "date" = some (.str "2024-01-10") ∧
    getField samplePayload "time" = some (.str "09:00") ∧
    getField samplePayload "duration" = some (.num 60) :=
  qr_roundtrip "s1" "CS101" "2024-01-10" "09:00" 60 "0" (by decide)

/-- C7 counterexample: a payload that parses and carries a `sessionId`
field — the empty string — is still rejected as malformed: the decoder
tests JavaScript truthiness, not mere presence, of `sessionId`. -/
theorem qrDecode_empty_sessionId_cex :
    getField emptyIdPayload "sessionId" = some (.str "") ∧
    qrDecode (some emptyIdPayload) = .error malformedError :=
  ⟨rfl, rfl⟩

/-- C7 amended: decode fails exactly when the text is unparseable or the
`sessionId` field is absent or JavaScript-falsy (empty string, `null`,
`0`, `false`); every failure carries the one malformed-payload error;
otherwise the parsed payload is returned unchanged.  Decode is a pure
function of the parsed text alone — it takes no store and no clock. -/
theorem qrDecode_malformed_amended :
    (∀ p : Option Json, (∃ e, qrDecode p = .error e) ↔
      (p = none ∨ ∃ j, p = some j ∧
        (getField j "sessionId" = none ∨
         ∃ v, getField j "sessionId" = some v ∧ jsTruthy v = false))) ∧
    (∀ (p : Option Json) (e : ScanError),
        qrDecode p = .error e → e = malformedError) ∧
    (∀ j : Json, jsTruthyOpt (getField j "sessionId") = true →
        qrDecode (some j) = .ok j) := by
  refine ⟨fun p => ?_, fun p e he => ?_, fun j hj => by simp [qrDecode, hj]⟩
  · cases p with
    | none => simp [qrDecode]
    | some j =>
      cases hv : getField j "sessionId" with
      | none => simp [qrDecode, jsTruthyOpt, hv]
      | some v =>
        cases htr : jsTruthy v with
        | true => simp [qrDecode, jsTruthyOpt, hv, htr]
        | false => simp [qrDecode, jsTruthyOpt, hv, htr]
  · cases p with
    | none => simpa [qrDecode] using he.symm
    | some j =>
      by_cases hj : jsTruthyOpt (getField j "sessionId") = true
      · simp [qrDecode, hj] at he
      · rw [qrDecode] at he
        rw [if_neg hj] at he
        exact (Except.error.injEq _ _).mp he.symm

/-- C7 amended witness: the unparseable text, the empty-string
`sessionId` payload and the sample payload, at the three branches. -/
theorem qrDecode_malformed_witness :
    ((∃ e, qrDecode none = .error e) ↔
      ((none : Option Json) = none ∨ ∃ j, (none : Option Json) = some j ∧
        (getField j "sessionId" = none ∨
         ∃ v, getField j "sessionId" = some v ∧ jsTruthy v = false))) ∧
    malformedError = malformedError ∧
    qrDecode (some samplePayload) = .ok samplePayload :=
  ⟨qrDecode_malformed_amended.1 none,
   qrDecode_malformed_amended.2.1 (some emptyIdPayload) malformedError rfl,
   qrDecode_malformed_amended.2.2 samplePayload rfl⟩

/-- C9: `attendanceRate` is a pure total function of the fetched record
list, equal to the spec's `round(100 * present / total)` with `0` on the
empty list; on `[present, present, absent, absent]` it is `50`. -/
theorem attendanceRate_matches_spec :
    (∀ records : List AttendanceRecord,
        attendanceRate records = attendanceRateSpec records) ∧
    attendanceRate [] = 0 ∧
    attendanceRate [presentRec, presentRec, absentRec, absentRec] = 50 := by
  refine ⟨fun records => ?_, rfl, ?_⟩
  · unfold attendanceRate attendanceRateSpec
    cases records with
    | nil => simp
    | cons a t =>
      rw [if_pos (by simp), if_neg (by simp)]
      congr 1
      rw [div_mul_eq_mul_div, mul_comm]
  · unfold attendanceRate
    rw [if_pos (by decide)]
    rw [show presentCount [presentRec, presentRec, absentRec, absentRec] = 2
          from rfl]
    rw [show ([presentRec, presentRec, absentRec, absentRec] :
          List AttendanceRecord).length = 4 from rfl]
    rw [show (((2 : ℕ) : ℚ) / ((4 : ℕ) : ℚ) * 100) = ((50 : ℤ) : ℚ) by
          norm_num]
    exact round_intCast 50

end Attendance
